import Mathlib

/-!
Verification of the realy-web realtime client layer.

This file gives a shallow embedding of the client-side core of the
repository and proves the stated properties about it:

* `src/lib/websocket.ts` — the `RelayWebSocket` transcript socket client,
  embedded as an explicit state machine over `ClientState` with an
  environment-driven `step` relation (transport open/message/error/close
  events, timer firings, and the public operations).
* `src/lib/api.ts` — token helpers (`getToken`) and the `apiFetch`
  response/header handling.
* `src/lib/auth.tsx` — the persistence surfaces (localStorage + cookie),
  the mount-time restore effect and `logout`.
* `src/app/meeting/[code]` room page — the participant-identity
  resolution branch of its `init` sequence.

Machine integers do not occur in this layer; strings and options model the
JavaScript values directly.  External collaborators (the browser WebSocket
object, `fetch`, `JSON.parse`, `localStorage`) are modelled by explicit
inputs: the step relation carries transport events, and fallible platform
calls return `Except`.
-/

namespace RealyWeb

/-! ## Data model (src/types.ts)

Only the fields the verified layer touches are carried; optional fields the
client never reads are omitted. -/

/-- Role of an authenticated user, from the `AuthUser` interface
(`"company" | "admin"`). -/
inductive Role
  | company
  | admin
deriving Repr, DecidableEq

/-- `AuthUser` from src/types.ts: the authenticated identity. -/
structure AuthUser where
  email : String
  role : Role
  entity_id : String
deriving Repr, DecidableEq

/-- `Company` from src/types.ts (optional fields omitted). -/
structure Company where
  id : String
  name : String
  email : String
  is_active : Bool
deriving Repr, DecidableEq

/-- `Participant` from src/types.ts (optional fields omitted). -/
structure Participant where
  id : String
  meeting_id : String
  name : String
  preferred_language : String
  is_registered : Bool
deriving Repr, DecidableEq

/-- `ParticipantCreate` from src/types.ts: the payload of a
participant-create (`joinMeeting`) call.  `profile_url` is never passed by
the room page and is omitted. -/
structure ParticipantCreate where
  meeting_id : String
  name : String
  preferred_language : String
  is_registered : Bool
deriving Repr, DecidableEq

/-- `TranscriptMessage` from src/types.ts.  The constant discriminator
field `type: "transcript"` is omitted; `translations` is an association
list standing for the `Record<string, string>` map. -/
structure TranscriptMessage where
  speaker_id : String
  speaker_name : String
  original_text : String
  original_language : String
  translations : List (String × String)
  timestamp : String
deriving Repr, DecidableEq

/-! ## Transcript socket client (src/lib/websocket.ts)

The `RelayWebSocket` class is embedded as a state machine.  A JavaScript
`WebSocket` object survives being dropped from the `ws` field: its event
handlers stay installed and keep firing into the same client instance, so
the state carries every transport ever constructed (`sockets`, indexed by
creation order) alongside the tracked `ws` index.  Browser timers likewise
survive the loss of their handle, so pending `setTimeout` registrations
are carried explicitly as `(timer id, delay ms)` pairs. -/

/-- Browser `WebSocket.readyState` values. -/
inductive ReadyState
  | CONNECTING
  | OPEN
  | CLOSING
  | CLOSED
deriving Repr, DecidableEq

/-- One transport constructed by `new WebSocket(url)`. -/
structure Socket where
  url : String
  readyState : ReadyState
deriving Repr, DecidableEq

/-- The values passed to the `onStatus` callback:
`"connecting" | "open" | "closed" | "error"`.  `opened` stands for the
source string `"open"` (a Lean keyword). -/
inductive WsStatus
  | connecting
  | opened
  | closed
  | error
deriving Repr, DecidableEq

/-- Outbound payloads: binary audio chunks (`ArrayBuffer`/`Blob`, modelled
as byte lists) or plain text. -/
inductive OutboundData
  | binary (chunk : List Nat)
  | text (s : String)
deriving Repr, DecidableEq

/-- Observable calls the client makes out of its boundary: the two
callbacks handed to the constructor, and `this.ws.send(...)` on a
transport (identified by its creation index). -/
inductive Output
  | statusCb (s : WsStatus)
  | transcriptCb (m : TranscriptMessage)
  | wsSend (sock : Nat) (d : OutboundData)
deriving Repr, DecidableEq

/-- The mutable fields of a `RelayWebSocket` instance, together with the
environment bookkeeping described above. -/
structure ClientState where
  meetingId : String
  participantId : String
  /-- Every transport ever constructed by this instance, in creation
  order; a transport's index is its identity. -/
  sockets : List Socket
  /-- `this.ws`, as an index into `sockets` (`none` = `null`). -/
  ws : Option Nat
  /-- `this.reconnectTimer` (`none` = `null`).  Holds a timer id; the id
  may refer to a timer that already fired (the source never nulls the
  field when the timer fires). -/
  reconnectTimer : Option Nat
  /-- `this.shouldReconnect`. -/
  shouldReconnect : Bool
  /-- Timers registered via `setTimeout` and neither fired nor cleared,
  as (id, delay in ms). -/
  pendingTimers : List (Nat × Nat)
  /-- Fresh timer-id supply. -/
  nextTimerId : Nat
deriving Repr, DecidableEq

/-- The state of a freshly constructed `RelayWebSocket`. -/
def initClient (meetingId participantId : String) : ClientState :=
  { meetingId := meetingId
    participantId := participantId
    sockets := []
    ws := none
    reconnectTimer := none
    shouldReconnect := true
    pendingTimers := []
    nextTimerId := 0 }

/-- `WS_BASE_URL`: the configured base with its leading `http` replaced by
`ws` (here at the source's default `http://localhost:8000`). -/
def WS_BASE_URL : String := "ws://localhost:8000"

/-- The transport address built in `connect()`. -/
def wsUrl (meetingId participantId : String) : String :=
  WS_BASE_URL ++ "/ws/" ++ meetingId ++ "/" ++ participantId

/-- The transport currently referenced by `this.ws`, if any. -/
def currentSocket (s : ClientState) : Option Socket :=
  s.ws.bind (fun k => s.sockets[k]?)

/-- The guard `this.ws?.readyState === WebSocket.OPEN` used by
`connect`, `sendAudioChunk`, `sendText` and `isConnected`. -/
def isTrackedOpen (s : ClientState) : Bool :=
  match currentSocket s with
  | some sk => sk.readyState == ReadyState.OPEN
  | none => false

/-- `connect()`: returns at once if the tracked transport is open;
otherwise reports `"connecting"` and constructs a fresh transport,
overwriting `this.ws` without touching the previous transport. -/
def connect (s : ClientState) : ClientState × List Output :=
  if isTrackedOpen s then (s, [])
  else
    let sock : Socket := ⟨wsUrl s.meetingId s.participantId, ReadyState.CONNECTING⟩
    ({ s with sockets := s.sockets ++ [sock], ws := some s.sockets.length },
     [Output.statusCb WsStatus.connecting])

/-- Replace the socket at index `k` (no-op when out of range). -/
def updateAt (socks : List Socket) (k : Nat) (f : Socket → Socket) : List Socket :=
  match socks[k]? with
  | some sk => socks.set k (f sk)
  | none => socks

/-- Platform semantics of `WebSocket.close()`: a connecting or open
transport moves to `CLOSING` (the close event arrives later as a separate
environment event); closing or closed transports are unaffected. -/
def closeTransport (sk : Socket) : Socket :=
  match sk.readyState with
  | ReadyState.CONNECTING => { sk with readyState := ReadyState.CLOSING }
  | ReadyState.OPEN => { sk with readyState := ReadyState.CLOSING }
  | _ => sk

/-- Result of `JSON.parse(event.data) as TranscriptMessage` on an inbound
frame: platform model of `JSON.parse`, which throws (here: `Except.error`
carrying the raw text) on anything that is not valid JSON.  A frame whose
text is valid JSON is represented together with its parsed value. -/
inductive Frame
  | jsonMsg (m : TranscriptMessage)
  | malformed (raw : String)
deriving Repr, DecidableEq

/-- Platform `JSON.parse` restricted to the two frame classes above. -/
def jsonParse (f : Frame) : Except String TranscriptMessage :=
  match f with
  | Frame.jsonMsg m => Except.ok m
  | Frame.malformed raw => Except.error raw

/-- Body of the installed `onmessage` handler: try to parse, invoke
`onTranscript` on success, and swallow the exception otherwise (the catch
block is empty).  The `Except` result type records whether an exception
escapes the handler. -/
def onMessageHandler (s : ClientState) (f : Frame) :
    Except String (ClientState × List Output) :=
  match jsonParse f with
  | Except.ok m => Except.ok (s, [Output.transcriptCb m])
  | Except.error _ => Except.ok (s, [])

/-- Body of the installed `onclose` handler: report `"closed"`, and while
`shouldReconnect` holds, register a fresh 3000 ms timer and overwrite
`this.reconnectTimer` with its id (a previously tracked timer keeps
running but its handle is lost). -/
def onCloseHandler (s : ClientState) : ClientState × List Output :=
  if s.shouldReconnect then
    ({ s with
        pendingTimers := s.pendingTimers ++ [(s.nextTimerId, 3000)]
        reconnectTimer := some s.nextTimerId
        nextTimerId := s.nextTimerId + 1 },
     [Output.statusCb WsStatus.closed])
  else (s, [Output.statusCb WsStatus.closed])

/-- Shared body of `sendAudioChunk` / `sendText`: both guard with
`this.ws?.readyState === WebSocket.OPEN` and call `this.ws.send`
(no queueing, no buffering). -/
def sendRaw (d : OutboundData) (s : ClientState) : ClientState × List Output :=
  if isTrackedOpen s then
    match s.ws with
    | some k => (s, [Output.wsSend k d])
    | none => (s, [])
  else (s, [])

/-- `sendAudioChunk(chunk)`. -/
def sendAudioChunk (chunk : List Nat) (s : ClientState) : ClientState × List Output :=
  sendRaw (OutboundData.binary chunk) s

/-- `sendText(text)`. -/
def sendText (text : String) (s : ClientState) : ClientState × List Output :=
  sendRaw (OutboundData.text text) s

/-- `disconnect()`: clear `shouldReconnect`, cancel the tracked timer if
one is recorded (`clearTimeout` removes it from the pending set when it
has not fired), close the tracked transport, and drop the reference. -/
def disconnect (s : ClientState) : ClientState × List Output :=
  let s1 := { s with shouldReconnect := false }
  let s2 :=
    match s1.reconnectTimer with
    | some t =>
        { s1 with
            pendingTimers := s1.pendingTimers.filter (fun p => p.1 != t)
            reconnectTimer := none }
    | none => s1
  let s3 :=
    match s2.ws with
    | some k => { s2 with sockets := updateAt s2.sockets k closeTransport }
    | none => s2
  ({ s3 with ws := none }, [])

/-- Actions driving the client: its public operations and the environment
events (transport handler firings and timer expiry). -/
inductive Action
  | connect
  | disconnect
  | sendAudio (chunk : List Nat)
  | sendText (text : String)
  | transportOpen (k : Nat)
  | transportMessage (k : Nat) (f : Frame)
  | transportError (k : Nat)
  | transportClose (k : Nat)
  | timerFire (t : Nat)
deriving Repr, DecidableEq

/-- One step of the client.  Environment events carry preconditions
(`none` = the event cannot occur): a transport only opens from
`CONNECTING`, only delivers messages while `OPEN`, closes at most once,
and a timer fires only while pending.  Each transport event runs the
handler the source installs on every transport it constructs — also on
transports no longer referenced by `this.ws`. -/
def step (s : ClientState) (a : Action) : Option (ClientState × List Output) :=
  match a with
  | Action.connect => some (connect s)
  | Action.disconnect => some (disconnect s)
  | Action.sendAudio chunk => some (sendAudioChunk chunk s)
  | Action.sendText text => some (sendText text s)
  | Action.transportOpen k =>
      match s.sockets[k]? with
      | some sk =>
          if sk.readyState = ReadyState.CONNECTING then
            some ({ s with
                      sockets := updateAt s.sockets k
                        (fun x => { x with readyState := ReadyState.OPEN }) },
                  [Output.statusCb WsStatus.opened])
          else none
      | none => none
  | Action.transportMessage k f =>
      match s.sockets[k]? with
      | some sk =>
          if sk.readyState = ReadyState.OPEN then
            match onMessageHandler s f with
            | Except.ok r => some r
            | Except.error _ => none
          else none
      | none => none
  | Action.transportError k =>
      match s.sockets[k]? with
      | some _ => some (s, [Output.statusCb WsStatus.error])
      | none => none
  | Action.transportClose k =>
      match s.sockets[k]? with
      | some sk =>
          if sk.readyState = ReadyState.CLOSED then none
          else
            some (onCloseHandler
              { s with
                  sockets := updateAt s.sockets k
                    (fun x => { x with readyState := ReadyState.CLOSED }) })
      | none => none
  | Action.timerFire t =>
      if s.pendingTimers.any (fun p => p.1 == t) then
        some (connect { s with pendingTimers := s.pendingTimers.filter (fun p => p.1 != t) })
      else none

/-- Run a sequence of actions, skipping those whose precondition fails,
collecting outputs in order. -/
def runActions (s : ClientState) (as : List Action) : ClientState × List Output :=
  match as with
  | [] => (s, [])
  | a :: rest =>
      match step s a with
      | none => runActions s rest
      | some (s', out) =>
          let r := runActions s' rest
          (r.1, out ++ r.2)

/-- Number of transports of this instance currently open. -/
def openCount (s : ClientState) : Nat :=
  (s.sockets.filter (fun sk => sk.readyState == ReadyState.OPEN)).length

/-! ## Helper lemmas about the socket client -/

/-- `connect` never touches the reconnect flag or the timers. -/
theorem connect_reconnect_fields (s : ClientState) :
    (connect s).1.shouldReconnect = s.shouldReconnect
    ∧ (connect s).1.pendingTimers = s.pendingTimers := by
  unfold connect
  split <;> simp

/-- `sendRaw` never changes the state. -/
theorem sendRaw_state (d : OutboundData) (s : ClientState) :
    (sendRaw d s).1 = s := by
  unfold sendRaw
  split
  · cases s.ws <;> rfl
  · rfl

/-- `disconnect` clears the flag and only ever removes timers. -/
theorem disconnect_reconnect_fields (s : ClientState) :
    (disconnect s).1.shouldReconnect = false
    ∧ (disconnect s).1.pendingTimers.Sublist s.pendingTimers := by
  unfold disconnect
  cases hrt : s.reconnectTimer <;> cases hws : s.ws <;>
    simp [hrt, hws, List.filter_sublist]

/-- With reconnection disabled, the close handler only reports. -/
theorem onCloseHandler_of_noReconnect (s : ClientState)
    (hs : s.shouldReconnect = false) :
    onCloseHandler s = (s, [Output.statusCb WsStatus.closed]) := by
  simp [onCloseHandler, hs]

/-- A single step from a state with reconnection disabled keeps it
disabled and never registers a timer (the pending set only shrinks). -/
theorem step_preserves_noReconnect (s : ClientState) (a : Action)
    (s' : ClientState) (out : List Output) (hs : s.shouldReconnect = false)
    (hstep : step s a = some (s', out)) :
    s'.shouldReconnect = false ∧ s'.pendingTimers.Sublist s.pendingTimers := by
  cases a with
  | connect =>
      have h : connect s = (s', out) := by simpa [step] using hstep
      have hf := connect_reconnect_fields s
      rw [h] at hf
      exact ⟨hf.1.trans hs, hf.2 ▸ List.Sublist.refl _⟩
  | disconnect =>
      have h : disconnect s = (s', out) := by simpa [step] using hstep
      have hf := disconnect_reconnect_fields s
      rw [h] at hf
      exact hf
  | sendAudio chunk =>
      have h : sendAudioChunk chunk s = (s', out) := by simpa [step] using hstep
      have hf := sendRaw_state (OutboundData.binary chunk) s
      rw [show sendRaw (OutboundData.binary chunk) s = sendAudioChunk chunk s from rfl,
          h] at hf
      obtain rfl : s' = s := hf
      exact ⟨hs, List.Sublist.refl _⟩
  | sendText text =>
      have h : sendText text s = (s', out) := by simpa [step] using hstep
      have hf := sendRaw_state (OutboundData.text text) s
      rw [show sendRaw (OutboundData.text text) s = sendText text s from rfl, h] at hf
      obtain rfl : s' = s := hf
      exact ⟨hs, List.Sublist.refl _⟩
  | transportOpen k =>
      rcases hget : s.sockets[k]? with _ | sk
      · simp [step, hget] at hstep
      · by_cases hrs : sk.readyState = ReadyState.CONNECTING
        · simp only [step, hget, hrs, if_pos, Option.some.injEq, Prod.mk.injEq] at hstep
          rw [← hstep.1]
          exact ⟨hs, List.Sublist.refl _⟩
        · simp [step, hget, hrs] at hstep
  | transportMessage k f =>
      rcases hget : s.sockets[k]? with _ | sk
      · simp [step, hget] at hstep
      · by_cases hrs : sk.readyState = ReadyState.OPEN
        · cases f <;>
            simp only [step, hget, hrs, if_pos, onMessageHandler, jsonParse,
              Option.some.injEq, Prod.mk.injEq] at hstep <;>
          · rw [← hstep.1]
            exact ⟨hs, List.Sublist.refl _⟩
        · simp [step, hget, hrs] at hstep
  | transportError k =>
      rcases hget : s.sockets[k]? with _ | sk
      · simp [step, hget] at hstep
      · simp only [step, hget, Option.some.injEq, Prod.mk.injEq] at hstep
        rw [← hstep.1]
        exact ⟨hs, List.Sublist.refl _⟩
  | transportClose k =>
      rcases hget : s.sockets[k]? with _ | sk
      · simp [step, hget] at hstep
      · by_cases hrs : sk.readyState = ReadyState.CLOSED
        · simp [step, hget, hrs] at hstep
        · simp only [step, hget, hrs, if_neg, onCloseHandler, hs, Bool.false_eq_true,
            if_false, Option.some.injEq, Prod.mk.injEq] at hstep
          rw [← hstep.1]
          exact ⟨rfl, List.Sublist.refl _⟩
  | timerFire t =>
      by_cases hp : s.pendingTimers.any (fun p => p.1 == t)
      · simp only [step, hp, if_pos] at hstep
        have h := Option.some.inj hstep
        have hf := connect_reconnect_fields
          { s with pendingTimers := s.pendingTimers.filter (fun p => p.1 != t) }
        rw [h] at hf
        refine ⟨hf.1.trans hs, ?_⟩
        rw [hf.2]
        exact List.filter_sublist _
      · simp [step, hp] at hstep

/-- Trace-level closure of `step_preserves_noReconnect`. -/
theorem runActions_preserves_noReconnect (as : List Action) (s : ClientState)
    (hs : s.shouldReconnect = false) :
    (runActions s as).1.shouldReconnect = false
    ∧ (runActions s as).1.pendingTimers.Sublist s.pendingTimers := by
  induction as generalizing s with
  | nil => exact ⟨by simpa [runActions] using hs, by simp [runActions]⟩
  | cons a rest ih =>
      rcases hst : step s a with _ | ⟨s', out⟩
      · simpa [runActions, hst] using ih s hs
      · have h1 := step_preserves_noReconnect s a s' out hs hst
        have h2 := ih s' h1.1
        refine ⟨by simpa [runActions, hst] using h2.1, ?_⟩
        have : (runActions s (a :: rest)).1 = (runActions s' rest).1 := by
          simp [runActions, hst]
        rw [this]
        exact h2.2.trans h1.2

/-! ## Claim theorems for the socket client -/

/-- C2, counterexample: the claim that calling `connect()` never results
in two simultaneously live transports is false.  `connect()` only guards
against an already-open tracked transport; calling it while the previous
transport is still connecting abandons that transport without closing it,
and once both finish their handshake the instance has two open
transports. -/
theorem c2_two_live_transports :
    openCount (runActions (initClient "m1" "p1")
      [Action.connect, Action.connect,
       Action.transportOpen 0, Action.transportOpen 1]).1 = 2 := by
  rfl

/-- C2 (amended): `connect()` is a no-op when the tracked transport is
open; otherwise it constructs exactly one new transport and tracks it,
leaving every previously constructed transport untouched (in particular a
still-connecting one is abandoned live, not closed). -/
theorem c2_connect_tracked (s : ClientState) :
    (isTrackedOpen s = true → connect s = (s, []))
    ∧ (isTrackedOpen s = false →
        (connect s).1.sockets =
          s.sockets ++ [⟨wsUrl s.meetingId s.participantId, ReadyState.CONNECTING⟩]
        ∧ (connect s).1.ws = some s.sockets.length
        ∧ ∀ (k : Nat) (sk : Socket),
            s.sockets[k]? = some sk → (connect s).1.sockets[k]? = some sk) := by
  constructor
  · intro h
    simp [connect, h]
  · intro h
    refine ⟨by simp [connect, h], by simp [connect, h], ?_⟩
    intro k sk hk
    have hlt : k < s.sockets.length := (List.getElem?_eq_some.mp hk).1
    simp only [connect, h, Bool.false_eq_true, if_false]
    rw [List.getElem?_append_left hlt]
    exact hk

/-- C2 witness for `c2_connect_tracked` at concrete states: a client with
an open tracked transport (no-op branch) and a client with a connecting
tracked transport (fresh-transport branch, previous transport intact). -/
theorem c2_connect_tracked_witness :
    connect { initClient "m1" "p1" with
               sockets := [⟨wsUrl "m1" "p1", ReadyState.OPEN⟩], ws := some 0 }
      = ({ initClient "m1" "p1" with
            sockets := [⟨wsUrl "m1" "p1", ReadyState.OPEN⟩], ws := some 0 }, [])
    ∧ (connect { initClient "m1" "p1" with
                  sockets := [⟨wsUrl "m1" "p1", ReadyState.CONNECTING⟩],
                  ws := some 0 }).1.sockets[0]?
        = some ⟨wsUrl "m1" "p1", ReadyState.CONNECTING⟩ :=
  ⟨(c2_connect_tracked { initClient "m1" "p1" with
      sockets := [⟨wsUrl "m1" "p1", ReadyState.OPEN⟩], ws := some 0 }).1 (by rfl),
   ((c2_connect_tracked { initClient "m1" "p1" with
      sockets := [⟨wsUrl "m1" "p1", ReadyState.CONNECTING⟩], ws := some 0 }).2
     (by rfl)).2.2 0 ⟨wsUrl "m1" "p1", ReadyState.CONNECTING⟩ (by rfl)⟩

/-- C4: while the tracked transport is not open (no transport, or one in
a connecting, closing, closed or errored condition), `sendAudioChunk` and
`sendText` change nothing and produce no transport call — nothing is
queued or buffered. -/
theorem c4_send_no_op (s : ClientState) (chunk : List Nat) (text : String) :
    isTrackedOpen s = false →
    sendAudioChunk chunk s = (s, []) ∧ sendText text s = (s, []) := by
  intro h
  constructor <;> simp [sendAudioChunk, sendText, sendRaw, h]

/-- C4 witness: sending on a freshly constructed client (no transport)
does nothing. -/
theorem c4_send_no_op_witness :
    isTrackedOpen (initClient "m1" "p1") = false
    ∧ sendAudioChunk [0, 1, 255] (initClient "m1" "p1") = (initClient "m1" "p1", [])
    ∧ sendText "ping" (initClient "m1" "p1") = (initClient "m1" "p1", []) :=
  ⟨rfl,
   (c4_send_no_op (initClient "m1" "p1") [0, 1, 255] "ping" rfl).1,
   (c4_send_no_op (initClient "m1" "p1") [0, 1, 255] "ping" rfl).2⟩

/-- C5: an inbound frame whose payload is not valid JSON never reaches
the transcript callback and never lets the parse exception escape the
handler (the result is `Except.ok` with no outputs and an unchanged
state); the same holds at the level of the step relation for a message
event on any open transport. -/
theorem c5_malformed_frame (s : ClientState) (raw : String) (k : Nat) (sk : Socket) :
    onMessageHandler s (Frame.malformed raw) = Except.ok (s, [])
    ∧ (s.sockets[k]? = some sk → sk.readyState = ReadyState.OPEN →
        step s (Action.transportMessage k (Frame.malformed raw)) = some (s, [])) := by
  refine ⟨by simp [onMessageHandler, jsonParse], ?_⟩
  intro hk ho
  simp [step, hk, ho, onMessageHandler, jsonParse]

/-- C5 witness: a non-JSON frame delivered to a client with one open
transport is dropped silently. -/
theorem c5_malformed_frame_witness :
    onMessageHandler (initClient "m1" "p1") (Frame.malformed "hello world")
      = Except.ok (initClient "m1" "p1", [])
    ∧ step { initClient "m1" "p1" with
              sockets := [⟨wsUrl "m1" "p1", ReadyState.OPEN⟩], ws := some 0 }
        (Action.transportMessage 0 (Frame.malformed "hello world"))
      = some ({ initClient "m1" "p1" with
                 sockets := [⟨wsUrl "m1" "p1", ReadyState.OPEN⟩], ws := some 0 }, []) :=
  ⟨(c5_malformed_frame (initClient "m1" "p1") "hello world" 0
      ⟨wsUrl "m1" "p1", ReadyState.OPEN⟩).1,
   (c5_malformed_frame
      { initClient "m1" "p1" with
         sockets := [⟨wsUrl "m1" "p1", ReadyState.OPEN⟩], ws := some 0 }
      "hello world" 0 ⟨wsUrl "m1" "p1", ReadyState.OPEN⟩).2 (by rfl) (by rfl)⟩

/-- C9: after `disconnect()`, reconnection is disabled permanently.  Over
every subsequent action sequence — including further `connect()` calls and
later transport closes — `shouldReconnect` stays `false` and the pending
timer set only shrinks (no reconnect attempt is ever scheduled again). -/
theorem c9_disconnect_permanent (s : ClientState) (as : List Action) :
    (runActions (disconnect s).1 as).1.shouldReconnect = false
    ∧ (runActions (disconnect s).1 as).1.pendingTimers.Sublist
        (disconnect s).1.pendingTimers :=
  runActions_preserves_noReconnect as (disconnect s).1
    (disconnect_reconnect_fields s).1

/-- C1, counterexample: the claim that calling `disconnect()` before the
reconnect delay elapses prevents any further connection attempt is false.
After two overlapping `connect()` calls, the two transports close in turn;
each close schedules a timer but the second overwrites the tracked handle,
so `disconnect()` cancels only the second timer.  The first timer is still
pending afterwards, and firing it performs a fresh connection attempt
(a third transport is constructed and `"connecting"` is reported). -/
theorem c1_stale_timer_reconnects_after_disconnect :
    (runActions (initClient "m1" "p1")
        [Action.connect, Action.connect, Action.transportClose 1,
         Action.transportClose 0, Action.disconnect]).1.pendingTimers = [(0, 3000)]
    ∧ (step (runActions (initClient "m1" "p1")
        [Action.connect, Action.connect, Action.transportClose 1,
         Action.transportClose 0, Action.disconnect]).1
        (Action.timerFire 0)).map (fun r => (r.1.sockets.length, r.2))
      = some (3, [Output.statusCb WsStatus.connecting]) := by
  constructor <;> rfl

/-- C1 (amended): every transport close with reconnection enabled
schedules exactly one reconnect timer with the fixed 3000 ms delay, and
the tracked handle points at it.  When the tracked timer is the only
pending one — as in every run without overlapping `connect()` calls —
`disconnect()` cancels it and leaves reconnection disabled, after which no
timer ever fires or is scheduled again, so no further connection attempt
occurs; with an untracked stale timer pending, `disconnect()` cancels only
the tracked one. -/
theorem c1_reconnect_schedule_and_cancel (s : ClientState) (k : Nat)
    (sk : Socket) (t : Nat) (as : List Action) :
    (s.sockets[k]? = some sk → sk.readyState ≠ ReadyState.CLOSED →
      s.shouldReconnect = true →
        (step s (Action.transportClose k)).map (fun r => r.1.pendingTimers)
          = some (s.pendingTimers ++ [(s.nextTimerId, 3000)])
        ∧ (step s (Action.transportClose k)).map (fun r => r.1.reconnectTimer)
          = some (some s.nextTimerId))
    ∧ (s.reconnectTimer = some t → s.pendingTimers = [(t, 3000)] →
        (disconnect s).1.pendingTimers = [] ∧ (disconnect s).1.shouldReconnect = false)
    ∧ (s.shouldReconnect = false → s.pendingTimers = [] →
        (runActions s as).1.pendingTimers = []
        ∧ (runActions s as).1.shouldReconnect = false
        ∧ step (runActions s as).1 (Action.timerFire t) = none) := by
  refine ⟨?_, ?_, ?_⟩
  · intro hk hrs hsr
    constructor <;> simp [step, hk, hrs, onCloseHandler, hsr]
  · intro hrt hpend
    unfold disconnect
    cases hws : s.ws <;> simp [hrt, hpend, hws]
  · intro hsr hpend
    have h := runActions_preserves_noReconnect as s hsr
    have hnil : (runActions s as).1.pendingTimers = [] := by
      apply List.sublist_nil.mp
      rw [← hpend]
      exact h.2
    refine ⟨hnil, h.1, ?_⟩
    simp [step, hnil]

/-- C1 witness for `c1_reconnect_schedule_and_cancel` at concrete states:
a close on a live transport schedules one 3000 ms timer; a disconnect with
the single tracked timer pending cancels it; and after that no timer fire
is ever enabled. -/
theorem c1_reconnect_schedule_and_cancel_witness :
    ((step { initClient "m1" "p1" with
              sockets := [⟨wsUrl "m1" "p1", ReadyState.OPEN⟩], ws := some 0 }
        (Action.transportClose 0)).map (fun r => r.1.pendingTimers)
      = some [(0, 3000)])
    ∧ ((disconnect { initClient "m1" "p1" with
          reconnectTimer := some 0, pendingTimers := [(0, 3000)],
          nextTimerId := 1 }).1.pendingTimers = [])
    ∧ (step (runActions { initClient "m1" "p1" with shouldReconnect := false }
          [Action.connect]).1 (Action.timerFire 0) = none) :=
  ⟨((c1_reconnect_schedule_and_cancel
      { initClient "m1" "p1" with
         sockets := [⟨wsUrl "m1" "p1", ReadyState.OPEN⟩], ws := some 0 }
      0 ⟨wsUrl "m1" "p1", ReadyState.OPEN⟩ 0 []).1 (by rfl) (by simp) (by rfl)).1,
   ((c1_reconnect_schedule_and_cancel
      { initClient "m1" "p1" with
         reconnectTimer := some 0, pendingTimers := [(0, 3000)], nextTimerId := 1 }
      0 ⟨wsUrl "m1" "p1", ReadyState.OPEN⟩ 0 []).2.1 (by rfl) (by rfl)).1,
   ((c1_reconnect_schedule_and_cancel
      { initClient "m1" "p1" with shouldReconnect := false }
      0 ⟨wsUrl "m1" "p1", ReadyState.OPEN⟩ 0 [Action.connect]).2.2
      (by rfl) (by rfl)).2.2⟩

/-! ## API gateway client (src/lib/api.ts)

`getToken` and the header/response handling of `apiFetch`.  The browser
environment (presence of `window`, the localStorage slot at `TOKEN_KEY`)
and the HTTP response are explicit inputs; platform calls that can throw
return `Except`. -/

/-- The localStorage key holding the credential. -/
def TOKEN_KEY : String := "relay_access_token"

/-- Browser environment as `getToken` observes it: whether `window` is
defined, and the value stored under `TOKEN_KEY`. -/
structure BrowserEnv where
  windowPresent : Bool
  stored : Option String
deriving Repr, DecidableEq

/-- Platform `localStorage.getItem(TOKEN_KEY)`: touching `localStorage`
outside a browser throws a ReferenceError. -/
def localStorageGetItem (env : BrowserEnv) : Except String (Option String) :=
  if env.windowPresent then Except.ok env.stored
  else Except.error "window is not defined"

/-- `getToken()`: return `null` when `window` is undefined, otherwise read
the stored credential. -/
def getToken (env : BrowserEnv) : Except String (Option String) :=
  if env.windowPresent = false then Except.ok none
  else localStorageGetItem env

/-- Header construction of `apiFetch`: the content type, then the
caller-supplied headers, then — when `auth` is set and a credential is
present — the bearer header. -/
def buildHeaders (auth : Bool) (env : BrowserEnv)
    (initHeaders : List (String × String)) :
    Except String (List (String × String)) :=
  let base := ("Content-Type", "application/json") :: initHeaders
  if auth then
    match getToken env with
    | Except.ok (some tok) => Except.ok (base ++ [("Authorization", "Bearer " ++ tok)])
    | Except.ok none => Except.ok base
    | Except.error e => Except.error e
  else Except.ok base

/-- A parsed JSON error/response body as `apiFetch` uses it: the optional
`detail` field and the `JSON.stringify` rendering of the whole value. -/
structure JsonBody where
  detail : Option String
  stringified : String
deriving Repr, DecidableEq

/-- An HTTP response: its status and the result of `response.json()`
(`Except.error` when the body is not valid JSON). -/
structure HttpResponse where
  status : Nat
  body : Except String JsonBody
deriving Repr

/-- Platform `response.ok`: status in the 200–299 range. -/
def respOk (r : HttpResponse) : Bool :=
  200 ≤ r.status && r.status < 300

/-- Response handling of `apiFetch`: a non-ok status throws a message
that starts as `"HTTP " ++ status` and is replaced by
`err.detail ?? JSON.stringify(err)` when the error body parses; a 204
returns nothing; otherwise the parsed body is returned (a parse failure
on a success body propagates, as `response.json()` rejects). -/
def handleResponse (resp : HttpResponse) : Except String (Option JsonBody) :=
  if !(respOk resp) then
    let detail :=
      match resp.body with
      | Except.ok err => err.detail.getD err.stringified
      | Except.error _ => "HTTP " ++ toString resp.status
    Except.error detail
  else if resp.status = 204 then Except.ok none
  else resp.body.map some

/-! ## Auth/session state (src/lib/auth.tsx)

The credential lives on two persistence surfaces: localStorage under
`TOKEN_KEY` (via `setToken`/`clearToken` of src/lib/api.ts) and the
`relay_token` cookie (via `setCookie`/`deleteCookie`). -/

/-- The two persistence surfaces. -/
structure PersistState where
  localStore : Option String
  cookie : Option String
deriving Repr, DecidableEq

/-- `clearToken()` (src/lib/api.ts): remove the localStorage entry. -/
def clearToken (p : PersistState) : PersistState :=
  { p with localStore := none }

/-- `deleteCookie("relay_token")` (src/lib/auth.tsx): expire the cookie,
which removes it from the cookie jar. -/
def deleteCookie (p : PersistState) : PersistState :=
  { p with cookie := none }

/-- The provider state: persistence surfaces plus the published `user`
and `isLoading` flags. -/
structure AuthSnapshot where
  persist : PersistState
  user : Option AuthUser
  isLoading : Bool
deriving Repr, DecidableEq

/-- Calls the provider makes to the backend, for observing which
operations hit the server. -/
inductive ServerCall
  | loginCall (email password : String)
  | registerCall (name email password : String)
  | getMeCall
deriving Repr, DecidableEq

/-- The mount-time restore effect of `AuthProvider`: read the stored
credential with `getToken()` (the effect runs in the browser, so the
`window` guard passes and `getToken` yields the localStorage slot); with
no credential just finish loading; otherwise fetch the identity
(`getMe`, result supplied as input) and either publish it or — on any
error — `clearToken()`; `finally` always ends the loading state. -/
def restore (getMeResult : Except String AuthUser) (s : AuthSnapshot) : AuthSnapshot :=
  match s.persist.localStore with
  | none => { s with isLoading := false }
  | some _ =>
      match getMeResult with
      | Except.ok u => { s with user := some u, isLoading := false }
      | Except.error _ => { s with persist := clearToken s.persist, isLoading := false }

/-- `logout()`: `clearToken()`, `deleteCookie("relay_token")`,
`setUser(null)` — three synchronous local mutations, no backend call. -/
def logout (s : AuthSnapshot) : AuthSnapshot × List ServerCall :=
  ({ s with persist := deleteCookie (clearToken s.persist), user := none }, [])

/-! ## Room page participant-identity resolution
(src/app/meeting/[code], `RoomPageContent` init)

The branch of the `init` sequence that resolves who the viewer is, after
the meeting has been loaded by code.  External inputs: the
`participantId` query parameter, the authenticated `user` from the auth
context, the result of `getMyCompany()`, the server's reply to a
`joinMeeting` call, and the stored participant display name. -/

/-- Inputs to the participant-identity resolution step. -/
structure ResolveInput where
  /-- `searchParams.get("participantId")`. -/
  pid : Option String
  /-- The authenticated identity from `useAuth()`. -/
  user : Option AuthUser
  /-- Result of `getMyCompany()` (only consulted on the host path). -/
  companyFetch : Except String Company
  /-- The server's reply to `joinMeeting` (only consulted on the host
  path). -/
  joinResult : Participant
  /-- `localStorage.getItem("relay_participant_name")`. -/
  storedName : Option String
  /-- `m.id` of the meeting loaded by code. -/
  meetingId : String
deriving Repr

/-- Observable outcome of the resolution step. -/
structure ResolveOutcome where
  /-- `participantIdToUse` / `setParticipantId`. -/
  participantIdToUse : Option String
  /-- `setIsHost`. -/
  isHost : Bool
  /-- `setDisplayName` (initial state `"You"`). -/
  displayName : String
  /-- `setError` (`none` = resolution succeeded). -/
  error : Option String
  /-- The `joinMeeting` payloads issued, in order. -/
  joinCalls : List ParticipantCreate
  /-- Number of `getMyCompany()` calls issued. -/
  companyCalls : Nat
deriving Repr, DecidableEq

/-- The host display name: the company name when `getMyCompany()`
succeeds, else the identity's email. -/
def hostNameOf (u : AuthUser) (companyFetch : Except String Company) : String :=
  match companyFetch with
  | Except.ok c => c.name
  | Except.error _ => u.email

/-- JavaScript truthiness of a nullable string: `null` and the empty
string are falsy.  `searchParams.get("participantId")` yields `""` for a
present-but-empty parameter, which `if (pid)` routes away from the
link-join branch. -/
def strTruthy : Option String → Bool
  | some v => v != ""
  | none => false

/-- JavaScript `a || b` for a nullable string `a`: yields `b` when `a`
is null or empty. -/
def strOr (a : Option String) (b : String) : String :=
  if strTruthy a then a.getD b else b

/-- The participant-identity resolution branch of `init`: a (truthy)
supplied participant id is adopted directly (link-join, no
authentication, no identity/company resolution); otherwise an
authenticated identity auto-creates one participant record named after
the resolved host name (host path); otherwise the flow stops with the
"must log in" error.  The branch guards are the source's `if (pid)` and
`else if (user)` (a nullable string is truthy iff present and non-empty;
the `user` object is truthy iff present). -/
def resolveParticipant (i : ResolveInput) : ResolveOutcome :=
  if strTruthy i.pid then
    { participantIdToUse := i.pid
      isHost := false
      displayName := strOr i.storedName "Participant"
      error := none
      joinCalls := []
      companyCalls := 0 }
  else
    match i.user with
    | some u =>
        let hostName := hostNameOf u i.companyFetch
        { participantIdToUse := some i.joinResult.id
          isHost := true
          displayName := hostName
          error := none
          joinCalls := [⟨i.meetingId, hostName, "en", true⟩]
          companyCalls := 1 }
    | none =>
        { participantIdToUse := none
          isHost := false
          displayName := "You"
          error := some "Please log in to start a meeting"
          joinCalls := []
          companyCalls := 0 }

/-! ## Claim theorems for the gateway, auth state and room page -/

/-- C3: the participant identity of the session controller is resolved in
three exclusive branches, guarded by the source's `if (pid)` truthiness
check.  A supplied (non-empty) participant id is adopted directly with no
participant-create call and no company resolution; otherwise — including
a present-but-empty `participantId=` parameter — an authenticated
identity issues exactly one participant-create call whose name is the
resolved host display name (company name, or the identity's email if the
company fetch fails); otherwise the flow ends in the "must log in" error
with no participant-create call. -/
theorem c3_identity_three_branches (i : ResolveInput) :
    (∀ p, i.pid = some p → p ≠ "" →
        (resolveParticipant i).participantIdToUse = some p
        ∧ (resolveParticipant i).joinCalls = []
        ∧ (resolveParticipant i).companyCalls = 0
        ∧ (resolveParticipant i).error = none
        ∧ (resolveParticipant i).isHost = false)
    ∧ (∀ u, strTruthy i.pid = false → i.user = some u →
        (resolveParticipant i).joinCalls =
          [⟨i.meetingId, hostNameOf u i.companyFetch, "en", true⟩]
        ∧ (resolveParticipant i).companyCalls = 1
        ∧ (resolveParticipant i).participantIdToUse = some i.joinResult.id
        ∧ (resolveParticipant i).error = none
        ∧ (resolveParticipant i).isHost = true)
    ∧ (strTruthy i.pid = false → i.user = none →
        (resolveParticipant i).error = some "Please log in to start a meeting"
        ∧ (resolveParticipant i).joinCalls = []
        ∧ (resolveParticipant i).companyCalls = 0
        ∧ (resolveParticipant i).participantIdToUse = none) := by
  refine ⟨?_, ?_, ?_⟩
  · intro p hp hne
    have ht : strTruthy (some p) = true := by
      simp [strTruthy, hne]
    simp [resolveParticipant, hp, ht]
  · intro u hft hu
    simp [resolveParticipant, hft, hu]
  · intro hft hu
    simp [resolveParticipant, hft, hu]

/-- C3 witness for `c3_identity_three_branches` at concrete inputs: the
link-join input of E2E scenario D (`participantId=p-42`, no identity),
a host input with an identity and a successful company fetch, and the
input with neither. -/
theorem c3_identity_three_branches_witness :
    ((resolveParticipant
        ⟨some "p-42", none, Except.error "no auth", ⟨"", "", "", "", false⟩,
         none, "m-1"⟩).participantIdToUse = some "p-42"
      ∧ (resolveParticipant
          ⟨some "p-42", none, Except.error "no auth", ⟨"", "", "", "", false⟩,
           none, "m-1"⟩).joinCalls = [])
    ∧ (resolveParticipant
        ⟨none, some ⟨"a@b.com", Role.company, "c-1"⟩,
         Except.ok ⟨"c-1", "Acme", "a@b.com", true⟩,
         ⟨"pt-9", "m-1", "Acme", "en", true⟩, none, "m-1"⟩).joinCalls
        = [⟨"m-1", "Acme", "en", true⟩]
    ∧ (resolveParticipant
        ⟨none, none, Except.error "no auth", ⟨"", "", "", "", false⟩,
         none, "m-1"⟩).error = some "Please log in to start a meeting" :=
  ⟨⟨((c3_identity_three_branches
      ⟨some "p-42", none, Except.error "no auth", ⟨"", "", "", "", false⟩,
       none, "m-1"⟩).1 "p-42" rfl (by decide)).1,
    ((c3_identity_three_branches
      ⟨some "p-42", none, Except.error "no auth", ⟨"", "", "", "", false⟩,
       none, "m-1"⟩).1 "p-42" rfl (by decide)).2.1⟩,
   ((c3_identity_three_branches
      ⟨none, some ⟨"a@b.com", Role.company, "c-1"⟩,
       Except.ok ⟨"c-1", "Acme", "a@b.com", true⟩,
       ⟨"pt-9", "m-1", "Acme", "en", true⟩, none, "m-1"⟩).2.1
      ⟨"a@b.com", Role.company, "c-1"⟩ rfl rfl).1,
   ((c3_identity_three_branches
      ⟨none, none, Except.error "no auth", ⟨"", "", "", "", false⟩,
       none, "m-1"⟩).2.2 rfl rfl).1⟩

/-- C6: the restore effect at the failing input the spec rules out — a
credential persisted on both surfaces and a failing identity fetch.  The
durable store is cleared and the identity stays unpublished, but the
`relay_token` cookie still holds the credential: the two persistence
surfaces end up desynchronized, contrary to the spec's consistency
requirement (only `clearToken()` runs in the catch; `deleteCookie` does
not).  Loading does terminate. -/
theorem c6_restore_leaves_cookie :
    (restore (Except.error "401 Unauthorized")
        ⟨⟨some "tok", some "tok"⟩, none, true⟩).persist.localStore = none
    ∧ (restore (Except.error "401 Unauthorized")
        ⟨⟨some "tok", some "tok"⟩, none, true⟩).persist.cookie = some "tok"
    ∧ (restore (Except.error "401 Unauthorized")
        ⟨⟨some "tok", some "tok"⟩, none, true⟩).user = none
    ∧ (restore (Except.error "401 Unauthorized")
        ⟨⟨some "tok", some "tok"⟩, none, true⟩).isLoading = false := by
  refine ⟨rfl, rfl, rfl, rfl⟩

/-- C7: after `logout()` neither persistence surface holds the
credential, the published identity is null, and no server call was made;
the operation is a single synchronous state update. -/
theorem c7_logout_clears_both_surfaces (s : AuthSnapshot) :
    (logout s).1.persist.localStore = none
    ∧ (logout s).1.persist.cookie = none
    ∧ (logout s).1.user = none
    ∧ (logout s).2 = [] := by
  refine ⟨rfl, rfl, rfl, rfl⟩

/-- C8: response handling of the gateway client.  A non-success status
raises a failure whose message is the server-provided error detail when
the error body parses (the `detail` field, or the serialized body when
that field is absent — `err.detail ?? JSON.stringify(err)`), and the
synthesized `"HTTP "` ++ status message when it does not; a success
status returns nothing on 204 and the parsed JSON body otherwise. -/
theorem c8_response_contract (resp : HttpResponse) :
    (respOk resp = false → ∀ j d, resp.body = Except.ok j → j.detail = some d →
        handleResponse resp = Except.error d)
    ∧ (respOk resp = false → ∀ j, resp.body = Except.ok j → j.detail = none →
        handleResponse resp = Except.error j.stringified)
    ∧ (respOk resp = false → ∀ e, resp.body = Except.error e →
        handleResponse resp = Except.error ("HTTP " ++ toString resp.status))
    ∧ (respOk resp = true → resp.status = 204 →
        handleResponse resp = Except.ok none)
    ∧ (respOk resp = true → resp.status ≠ 204 → ∀ j, resp.body = Except.ok j →
        handleResponse resp = Except.ok (some j)) := by
  refine ⟨?_, ?_, ?_, ?_, ?_⟩
  · intro hok j d hb hd
    simp [handleResponse, hok, hb, hd]
  · intro hok j hb hd
    simp [handleResponse, hok, hb, hd]
  · intro hok e hb
    simp [handleResponse, hok, hb]
  · intro hok h204
    simp [handleResponse, hok, h204]
  · intro hok h204 j hb
    simp [handleResponse, hok, h204, hb, Except.map]

/-- C8 witness for `c8_response_contract` at concrete responses: a 404
with a `detail` field, a 500 whose body has no `detail`, a 502 with an
unparseable body, a 204, and a 200 with a JSON body. -/
theorem c8_response_contract_witness :
    handleResponse ⟨404, Except.ok ⟨some "Meeting not found", "x"⟩⟩
      = Except.error "Meeting not found"
    ∧ handleResponse ⟨500, Except.ok ⟨none, "\x7b\x7d"⟩⟩ = Except.error "\x7b\x7d"
    ∧ handleResponse ⟨502, Except.error "bad gateway page"⟩
      = Except.error "HTTP 502"
    ∧ handleResponse ⟨204, Except.error "no body"⟩ = Except.ok none
    ∧ handleResponse ⟨200, Except.ok ⟨none, "\x7b\x7d"⟩⟩
      = Except.ok (some ⟨none, "\x7b\x7d"⟩) :=
  ⟨(c8_response_contract ⟨404, Except.ok ⟨some "Meeting not found", "x"⟩⟩).1
     rfl ⟨some "Meeting not found", "x"⟩ "Meeting not found" rfl rfl,
   (c8_response_contract ⟨500, Except.ok ⟨none, "\x7b\x7d"⟩⟩).2.1
     rfl ⟨none, "\x7b\x7d"⟩ rfl rfl,
   (c8_response_contract ⟨502, Except.error "bad gateway page"⟩).2.2.1
     rfl "bad gateway page" rfl,
   (c8_response_contract ⟨204, Except.error "no body"⟩).2.2.2.1 rfl rfl,
   (c8_response_contract ⟨200, Except.ok ⟨none, "\x7b\x7d"⟩⟩).2.2.2.2
     rfl (by decide) ⟨none, "\x7b\x7d"⟩ rfl⟩

/-- C10: with no browser environment (`window` undefined), `getToken`
returns null without raising, and header construction — even with
`attachAuth` on — attaches no `Authorization` header: the result is
exactly the base header list, with no bearer entry added. -/
theorem c10_no_window_no_auth_header (env : BrowserEnv) (auth : Bool)
    (initHeaders : List (String × String)) :
    env.windowPresent = false →
    getToken env = Except.ok none
    ∧ buildHeaders auth env initHeaders
        = Except.ok (("Content-Type", "application/json") :: initHeaders)
    ∧ ("Authorization" ∉ initHeaders.map Prod.fst →
        "Authorization" ∉
          (("Content-Type", "application/json") :: initHeaders).map Prod.fst) := by
  intro hw
  have hg : getToken env = Except.ok none := by simp [getToken, hw]
  refine ⟨hg, ?_, ?_⟩
  · cases hauth : auth <;> simp [buildHeaders, hg]
  · intro hmem
    simp only [List.map_cons, List.mem_cons]
    rintro (h | h)
    · exact absurd h.symm (by simp)
    · exact hmem h

/-- C10 witness: a server-side render environment with a stale stored
value and `attachAuth` on yields no credential and no bearer header. -/
theorem c10_no_window_no_auth_header_witness :
    getToken ⟨false, some "tok"⟩ = Except.ok none
    ∧ buildHeaders true ⟨false, some "tok"⟩ [("Accept", "application/json")]
      = Except.ok [("Content-Type", "application/json"), ("Accept", "application/json")]
    ∧ "Authorization" ∉
        ([("Content-Type", "application/json"),
          ("Accept", "application/json")] : List (String × String)).map Prod.fst :=
  ⟨(c10_no_window_no_auth_header ⟨false, some "tok"⟩ true
      [("Accept", "application/json")] rfl).1,
   (c10_no_window_no_auth_header ⟨false, some "tok"⟩ true
      [("Accept", "application/json")] rfl).2.1,
   (c10_no_window_no_auth_header ⟨false, some "tok"⟩ true
      [("Accept", "application/json")] rfl).2.2 (by decide)⟩

end RealyWeb
